import Mathlib

/-!
Verification development for the request/pagination/rate-limit loop of
`twtcli.py`, a single-file HTTP polling client.  The Python source is
shallowly embedded below:

* JSON values (the shapes `json.loads`/`json.dumps` handle) become the
  mutually inductive `Json`/`JList`/`JFields`; Python truthiness and `==`
  become `jtruthy` and `pyEq`.
* `json.dumps` (default separators, `ensure_ascii=True`, optional
  `sort_keys=True`) becomes `dumpVal` / `dumpValSorted`.
* `json.load` becomes the fuel-indexed parser `jsonParse` (objects, arrays,
  strings with escapes, integers, `true`/`false`/`null`).
* `hashlib.sha256(...).hexdigest()` becomes a full SHA-256 over the UTF-8
  bytes of the serialized request (`sha256hex`).
* The `while True:` request loop (source lines 183-268) becomes the
  executable transition function `runLoop` over an input list of transport
  outcomes; it records the observable events (resume-file saves, sends,
  sleeps, emitted bodies) and the way the loop ended.
* The resume-record handling (source lines 172-188 and 270-274) becomes
  `dumpRecord`, `loadRecord` and `clearResume`.

Machine integers do not arise (Python ints are unbounded); response header
values and delays are modelled as rationals, which represent exactly the
values the claims concern.  `time.time()` is modelled as the constant
`Config.now` (each code path reads the clock at most once per decision).
-/

mutual
/-- JSON values, the data `json.loads` produces and the script manipulates.
Python `None`/`True`/`False`/`int`/`str`/`list`/`dict` map to the six
constructors; `Json.null` also stands for Python `None` in the `cursor` and
`max_id` variables.  (Floats do not occur in the values the claims touch.)
The sequence/field-list types are their own inductives rather than `List`
so that all functions below are plain structural recursions. -/
inductive Json where
  | null : Json
  | bool (b : Bool) : Json
  | num (n : Int) : Json
  | str (s : String) : Json
  | arr (xs : JList) : Json
  | obj (fs : JFields) : Json

/-- A JSON array's elements. -/
inductive JList where
  | nil : JList
  | cons (hd : Json) (tl : JList) : JList

/-- A JSON object's fields, in insertion order (Python dicts are ordered
and have unique keys). -/
inductive JFields where
  | nil : JFields
  | cons (k : String) (v : Json) (tl : JFields) : JFields
end

/-- Python truthiness (`bool(x)`): `None`, `False`, `0`, `""`, `[]`, `{}`
are falsy, everything else truthy.  Used for `if not cursor`, `cursor or
max_id`, `if args.wait:` etc. -/
def jtruthy : Json → Bool
  | .null => false
  | .bool b => b
  | .num n => n != 0
  | .str s => !s.isEmpty
  | .arr .nil => false
  | .arr (.cons _ _) => true
  | .obj .nil => false
  | .obj (.cons _ _ _) => true

/-- First-match lookup among an object's fields (Python dicts have unique
keys, so the first match is the only match); models `d[k]` / `d.get(k)`
presence. -/
def jlookup : JFields → String → Option Json
  | .nil, _ => none
  | .cons k v fs, k' => if k' = k then some v else jlookup fs k'

/-- Python integer value of a bool (`True == 1`, `False == 0`). -/
def pyBoolInt (b : Bool) : Int := if b then 1 else 0

mutual
/-- Python `==` on JSON values: structural, except that `bool` and `int`
compare by numeric value (`True == 1`).  Object comparison is
field-by-field in order; Python dict equality ignores key order, but every
comparison the script performs (`max_id == old_max_id`, source line 235)
involves the scalar `id` values of the claims. -/
def pyEq : Json → Json → Bool
  | .null, .null => true
  | .bool x, .bool y => x == y
  | .bool x, .num n => pyBoolInt x == n
  | .num n, .bool x => n == pyBoolInt x
  | .num x, .num y => x == y
  | .str x, .str y => x == y
  | .arr xs, .arr ys => pyEqL xs ys
  | .obj xs, .obj ys => pyEqO xs ys
  | _, _ => false

/-- Elementwise Python `==` on JSON arrays. -/
def pyEqL : JList → JList → Bool
  | .nil, .nil => true
  | .cons x xs, .cons y ys => pyEq x y && pyEqL xs ys
  | _, _ => false

/-- Fieldwise Python `==` on JSON object fields. -/
def pyEqO : JFields → JFields → Bool
  | .nil, .nil => true
  | .cons k x xs, .cons k' y ys => k == k' && pyEq x y && pyEqO xs ys
  | _, _ => false
end

/-- Last element of a JSON array (`resp[-1]` on a non-empty list). -/
def jlast : JList → Option Json
  | .nil => none
  | .cons x .nil => some x
  | .cons _ (.cons y ys) => jlast (.cons y ys)

example : pyEq (.num 42) (.num 42) = true := by decide
example : pyEq (.num 42) (.str "42") = false := by decide
example : pyEq (.num 1) (.bool true) = true := by decide
example : jtruthy (.num 0) = false := by decide
example : jlast (.cons (.num 1) (.cons (.num 2) .nil)) = some (.num 2) := rfl
example : jlookup (.cons "next_cursor" (.str "a") .nil) "next_cursor" = some (.str "a") := rfl

/-! ### String ordering

Python compares strings lexicographically by code point, both for `sorted`
and for dict-key sorting in `json.dumps(..., sort_keys=True)`.  `strLt` is
that order as an executable boolean. -/

/-- Code-point-lexicographic strict order on character lists. -/
def strLtL : List Char → List Char → Bool
  | [], [] => false
  | [], _ :: _ => true
  | _ :: _, [] => false
  | a :: as, b :: bs =>
    if a.toNat < b.toNat then true
    else if b.toNat < a.toNat then false
    else strLtL as bs

/-- Python's `<` on strings (code-point lexicographic). -/
def strLt (a b : String) : Bool := strLtL a.data b.data

theorem strLtL_irrefl (l : List Char) : strLtL l l = false := by
  induction l with
  | nil => rfl
  | cons c t ih => simp [strLtL, ih]

theorem strLtL_trans :
    ∀ {a b c : List Char}, strLtL a b = true → strLtL b c = true → strLtL a c = true := by
  intro a
  induction a with
  | nil =>
    intro b c hab hbc
    cases b with
    | nil => exact absurd hab (by simp [strLtL])
    | cons y bs =>
      cases c with
      | nil => exact absurd hbc (by simp [strLtL])
      | cons z cs => simp [strLtL]
  | cons x as ih =>
    intro b c hab hbc
    cases b with
    | nil => exact absurd hab (by simp [strLtL])
    | cons y bs =>
      cases c with
      | nil => exact absurd hbc (by simp [strLtL])
      | cons z cs =>
        rw [strLtL] at hab hbc ⊢
        by_cases hxy : x.toNat < y.toNat
        · by_cases hyz : y.toNat < z.toNat
          · rw [if_pos (Nat.lt_trans hxy hyz)]
          · rw [if_neg hyz] at hbc
            by_cases hzy : z.toNat < y.toNat
            · rw [if_pos hzy] at hbc
              exact absurd hbc (by simp)
            · rw [if_pos (by omega : x.toNat < z.toNat)]
        · rw [if_neg hxy] at hab
          by_cases hyx : y.toNat < x.toNat
          · rw [if_pos hyx] at hab
            exact absurd hab (by simp)
          · rw [if_neg hyx] at hab
            by_cases hyz : y.toNat < z.toNat
            · rw [if_pos (by omega : x.toNat < z.toNat)]
            · rw [if_neg hyz] at hbc
              by_cases hzy : z.toNat < y.toNat
              · rw [if_pos hzy] at hbc
                exact absurd hbc (by simp)
              · rw [if_neg hzy] at hbc
                rw [if_neg (by omega : ¬x.toNat < z.toNat),
                  if_neg (by omega : ¬z.toNat < x.toNat)]
                exact ih hab hbc

theorem charToNat_inj {a b : Char} (h : a.toNat = b.toNat) : a = b :=
  Char.eq_of_val_eq (by
    apply UInt32.eq_of_val_eq
    exact Fin.ext h)

theorem strLtL_antisymm_eq :
    ∀ {a b : List Char}, strLtL a b = false → strLtL b a = false → a = b := by
  intro a
  induction a with
  | nil =>
    intro b hab _
    cases b with
    | nil => rfl
    | cons y bs => exact absurd hab (by simp [strLtL])
  | cons x as ih =>
    intro b hab hba
    cases b with
    | nil => exact absurd hba (by simp [strLtL])
    | cons y bs =>
      rw [strLtL] at hab hba
      by_cases hxy : x.toNat < y.toNat
      · rw [if_pos hxy] at hab
        exact absurd hab (by simp)
      · by_cases hyx : y.toNat < x.toNat
        · rw [if_pos hyx] at hba
          exact absurd hba (by simp)
        · rw [if_neg hxy, if_neg hyx] at hab
          rw [if_neg hyx, if_neg hxy] at hba
          have hchar : x = y := charToNat_inj (by omega)
          rw [hchar, ih hab hba]

theorem strLt_irrefl (s : String) : strLt s s = false := strLtL_irrefl s.data

theorem strLt_trans {a b c : String} (hab : strLt a b = true)
    (hbc : strLt b c = true) : strLt a c = true := strLtL_trans hab hbc

theorem strLt_ne {a b : String} (h : strLt a b = true) : a ≠ b := by
  intro heq
  rw [heq, strLt_irrefl] at h
  exact Bool.noConfusion h

theorem strLt_antisymm_eq {a b : String} (hab : strLt a b = false)
    (hba : strLt b a = false) : a = b := by
  have hd : a.data = b.data := strLtL_antisymm_eq hab hba
  cases a
  cases b
  exact congrArg String.mk hd

/-- Exactly one of `a < b`, `b < a`, `a = b` holds; this is the form the
sorted-dict proofs use. -/
theorem strLt_total {a b : String} (hab : strLt a b = false) (hne : a ≠ b) :
    strLt b a = true := by
  cases hba : strLt b a with
  | true => rfl
  | false => exact absurd (strLt_antisymm_eq hab hba) hne

/-! ### The `-d key=value` parameter mapping

Source lines 137-139 build a Python dict by repeated assignment
(`data[k] = v`): a later occurrence of a key overwrites an earlier one.
`pyLookup` is the resulting mapping (last occurrence wins).  Because the
fingerprint serialization sorts keys (`json.dumps(..., sort_keys=True)`,
line 162), the dict is represented canonically in strictly increasing key
order by `mkDict`. -/

/-- The mapping denoted by a `-d` option list: last occurrence of a key
wins, as with Python's repeated `data[k] = v` assignment. -/
def pyLookup : List (String × String) → String → Option String
  | [], _ => none
  | (k, v) :: t, k' =>
    match pyLookup t k' with
    | some w => some w
    | none => if k' = k then some v else none

/-- First-match lookup in an association list (the only match once keys are
deduplicated). -/
def aLookup : List (String × String) → String → Option String
  | [], _ => none
  | (k, v) :: t, k' => if k' = k then some v else aLookup t k'

/-- Insert a binding into a strictly key-sorted association list, replacing
any existing binding of the key. -/
def insDict : List (String × String) → String → String → List (String × String)
  | [], k, v => [(k, v)]
  | (k', v') :: t, k, v =>
    if k = k' then (k, v) :: t
    else if strLt k k' then (k, v) :: (k', v') :: t
    else (k', v') :: insDict t k v

/-- The canonical (key-sorted, deduplicated, last-wins) form of the dict
built from a `-d` option list. -/
def mkDict (l : List (String × String)) : List (String × String) :=
  l.foldl (fun d kv => insDict d kv.1 kv.2) []

/-- Strictly increasing keys. -/
def sortedKeys (d : List (String × String)) : Prop :=
  d.Pairwise fun a b => strLt a.1 b.1 = true

theorem aLookup_insDict (d : List (String × String)) (k v k' : String) :
    aLookup (insDict d k v) k' = if k' = k then some v else aLookup d k' := by
  induction d with
  | nil => simp [insDict, aLookup]
  | cons p t ih =>
    obtain ⟨k₀, v₀⟩ := p
    by_cases h1 : k = k₀
    · rw [insDict, if_pos h1, aLookup]
      by_cases h2 : k' = k
      · rw [if_pos h2, if_pos h2]
      · rw [if_neg h2, if_neg h2, aLookup,
          if_neg (fun hh => h2 (hh.trans h1.symm))]
    · by_cases h2 : strLt k k₀ = true
      · rw [insDict, if_neg h1, if_pos h2, aLookup]
      · rw [insDict, if_neg h1, if_neg h2, aLookup, ih, aLookup]
        by_cases h3 : k' = k₀
        · rw [if_pos h3, if_neg (fun hh => h1 (hh.symm.trans h3)), if_pos h3]
        · by_cases h4 : k' = k
          · rw [if_neg h3, if_pos h4, if_pos h4]
          · rw [if_neg h3, if_neg h4, if_neg h4, if_neg h3]

theorem mem_insDict {d : List (String × String)} {k v : String} {p : String × String}
    (h : p ∈ insDict d k v) : p ∈ d ∨ p = (k, v) := by
  induction d with
  | nil => simpa [insDict] using h
  | cons q t ih =>
    obtain ⟨k₀, v₀⟩ := q
    by_cases h1 : k = k₀
    · rw [insDict, if_pos h1] at h
      rcases List.mem_cons.mp h with h' | h'
      · exact Or.inr h'
      · exact Or.inl (List.mem_cons_of_mem _ h')
    · by_cases h2 : strLt k k₀ = true
      · rw [insDict, if_neg h1, if_pos h2] at h
        rcases List.mem_cons.mp h with h' | h'
        · exact Or.inr h'
        · exact Or.inl h'
      · rw [insDict, if_neg h1, if_neg h2] at h
        rcases List.mem_cons.mp h with h' | h'
        · exact Or.inl (by rw [h']; exact List.mem_cons_self _ _)
        · rcases ih h' with h'' | h''
          · exact Or.inl (List.mem_cons_of_mem _ h'')
          · exact Or.inr h''

theorem sortedKeys_insDict {d : List (String × String)} (hd : sortedKeys d)
    (k v : String) : sortedKeys (insDict d k v) := by
  induction d with
  | nil => simp [insDict, sortedKeys]
  | cons q t ih =>
    obtain ⟨k₀, v₀⟩ := q
    simp only [sortedKeys, List.pairwise_cons] at hd
    obtain ⟨h₀, ht⟩ := hd
    by_cases h1 : k = k₀
    · rw [insDict, if_pos h1]
      simp only [sortedKeys, List.pairwise_cons]
      exact ⟨fun b hb => by rw [h1]; exact h₀ b hb, ht⟩
    · by_cases h2 : strLt k k₀ = true
      · rw [insDict, if_neg h1, if_pos h2]
        simp only [sortedKeys, List.pairwise_cons]
        refine ⟨fun b hb => ?_, ?_⟩
        · rcases List.mem_cons.mp hb with h' | h'
          · rw [h']; exact h2
          · exact strLt_trans h2 (h₀ b h')
        · exact ⟨h₀, ht⟩
      · rw [insDict, if_neg h1, if_neg h2]
        simp only [sortedKeys, List.pairwise_cons]
        refine ⟨fun b hb => ?_, ih ht⟩
        rcases mem_insDict hb with h' | h'
        · exact h₀ b h'
        · simp only [Bool.not_eq_true] at h2
          rw [h']
          exact strLt_total h2 h1

theorem mkDict_append_single (l : List (String × String)) (k v : String) :
    mkDict (l ++ [(k, v)]) = insDict (mkDict l) k v := by
  simp [mkDict, List.foldl_append]

theorem pyLookup_append_single (l : List (String × String)) (k v k' : String) :
    pyLookup (l ++ [(k, v)]) k' = if k' = k then some v else pyLookup l k' := by
  induction l with
  | nil => simp [pyLookup]
  | cons p t ih =>
    obtain ⟨k₀, v₀⟩ := p
    rw [List.cons_append, pyLookup, ih, pyLookup]
    by_cases h : k' = k
    · simp only [if_pos h]
    · simp only [if_neg h]

theorem sortedKeys_mkDict (l : List (String × String)) : sortedKeys (mkDict l) := by
  induction l using List.reverseRecOn with
  | nil => simp [mkDict, sortedKeys]
  | append_singleton t p ih =>
    obtain ⟨k, v⟩ := p
    rw [mkDict_append_single]
    exact sortedKeys_insDict ih k v

theorem aLookup_mkDict (l : List (String × String)) (k : String) :
    aLookup (mkDict l) k = pyLookup l k := by
  induction l using List.reverseRecOn with
  | nil => simp [mkDict, aLookup, pyLookup]
  | append_singleton t p ih =>
    obtain ⟨k₀, v₀⟩ := p
    rw [mkDict_append_single, aLookup_insDict, pyLookup_append_single, ih]

theorem aLookup_eq_none {d : List (String × String)} {k : String}
    (h : ∀ p ∈ d, k ≠ p.1) : aLookup d k = none := by
  induction d with
  | nil => rfl
  | cons p t ih =>
    obtain ⟨k₀, v₀⟩ := p
    rw [aLookup, if_neg (h (k₀, v₀) (List.mem_cons_self _ _)), ih]
    exact fun q hq => h q (List.mem_cons_of_mem _ hq)

theorem aLookup_mem {d : List (String × String)} {k v : String}
    (h : aLookup d k = some v) : (k, v) ∈ d := by
  induction d with
  | nil => simp [aLookup] at h
  | cons p t ih =>
    obtain ⟨k₀, v₀⟩ := p
    by_cases h' : k = k₀
    · rw [aLookup, if_pos h'] at h
      obtain rfl : v₀ = v := Option.some_injective _ h
      exact h' ▸ List.mem_cons_self _ _
    · rw [aLookup, if_neg h'] at h
      exact List.mem_cons_of_mem _ (ih h)

/-- Two strictly key-sorted association lists with the same lookup function
are equal. -/
theorem sorted_aLookup_ext :
    ∀ {d₁ d₂ : List (String × String)}, sortedKeys d₁ → sortedKeys d₂ →
      (∀ k, aLookup d₁ k = aLookup d₂ k) → d₁ = d₂ := by
  intro d₁
  induction d₁ with
  | nil =>
    intro d₂ _ _ h
    cases d₂ with
    | nil => rfl
    | cons p t =>
      obtain ⟨k₀, v₀⟩ := p
      have := h k₀
      simp [aLookup] at this
  | cons p t ih =>
    intro d₂ h₁ h₂ h
    obtain ⟨k₁, v₁⟩ := p
    cases d₂ with
    | nil =>
      have := h k₁
      simp [aLookup] at this
    | cons q t₂ =>
      obtain ⟨k₂, v₂⟩ := q
      simp only [sortedKeys, List.pairwise_cons] at h₁ h₂
      obtain ⟨hk₁, ht₁⟩ := h₁
      obtain ⟨hk₂, ht₂⟩ := h₂
      have hkeys : k₁ = k₂ := by
        by_cases hlt : strLt k₁ k₂ = true
        · exfalso
          have h' := h k₁
          rw [aLookup, if_pos rfl, aLookup, if_neg (strLt_ne hlt)] at h'
          have hnone : aLookup t₂ k₁ = none :=
            aLookup_eq_none fun q hq => strLt_ne (strLt_trans hlt (hk₂ q hq))
          rw [hnone] at h'
          exact Option.noConfusion h'
        · by_cases hgt : strLt k₂ k₁ = true
          · exfalso
            have h' := h k₂
            rw [aLookup, if_neg (strLt_ne hgt), aLookup, if_pos rfl] at h'
            have hnone : aLookup t k₂ = none :=
              aLookup_eq_none fun q hq => strLt_ne (strLt_trans hgt (hk₁ q hq))
            rw [hnone] at h'
            exact Option.noConfusion h'
          · simp only [Bool.not_eq_true] at hlt hgt
            exact strLt_antisymm_eq hlt hgt
      subst hkeys
      have hvals : v₁ = v₂ := by
        have h' := h k₁
        rw [aLookup, if_pos rfl, aLookup, if_pos rfl] at h'
        exact Option.some_injective _ h'
      subst hvals
      have htail : t = t₂ := by
        refine ih ht₁ ht₂ fun k => ?_
        by_cases hk : k = k₁
        · subst hk
          rw [aLookup_eq_none fun q hq => strLt_ne (hk₁ q hq),
              aLookup_eq_none fun q hq => strLt_ne (hk₂ q hq)]
        · have h' := h k
          rwa [aLookup, if_neg hk, aLookup, if_neg hk] at h'
      rw [htail]

theorem pyLookup_eq_none {l : List (String × String)} {k : String}
    (h : k ∉ l.map Prod.fst) : pyLookup l k = none := by
  induction l with
  | nil => rfl
  | cons p t ih =>
    obtain ⟨k₀, v₀⟩ := p
    simp only [List.map_cons, List.mem_cons] at h
    push_neg at h
    rw [pyLookup, ih h.2, if_neg h.1]

/-- The canonical dict depends only on the mapping the option list denotes:
option lists with the same last-wins lookup on their keys build equal
dicts. -/
theorem mkDict_ext {d₁ d₂ : List (String × String)}
    (h : ∀ k ∈ d₁.map Prod.fst ++ d₂.map Prod.fst, pyLookup d₁ k = pyLookup d₂ k) :
    mkDict d₁ = mkDict d₂ := by
  refine sorted_aLookup_ext (sortedKeys_mkDict d₁) (sortedKeys_mkDict d₂) fun k => ?_
  rw [aLookup_mkDict, aLookup_mkDict]
  by_cases hk : k ∈ d₁.map Prod.fst ++ d₂.map Prod.fst
  · exact h k hk
  · rw [List.mem_append] at hk
    push_neg at hk
    rw [pyLookup_eq_none hk.1, pyLookup_eq_none hk.2]

/-! ### `json.dumps` (default separators, `ensure_ascii=True`)

`dumpVal` is `json.dumps` with the default arguments the script uses at
source lines 188 and 221; `dumpValSorted` adds `sort_keys=True` as used for
the fingerprint at line 162.  Output is always ASCII: non-ASCII and control
characters are `\uXXXX`-escaped exactly as CPython does. -/

/-- Lowercase hex digit. -/
def hexDigit (n : Nat) : Char :=
  if n < 10 then Char.ofNat (48 + n) else Char.ofNat (87 + n)

/-- Four lowercase hex digits. -/
def hex4 (n : Nat) : List Char :=
  [hexDigit (n / 4096 % 16), hexDigit (n / 256 % 16), hexDigit (n / 16 % 16), hexDigit (n % 16)]

/-- `\uXXXX` escape; astral code points become a surrogate pair, as CPython
emits. -/
def uEscape (n : Nat) : List Char :=
  if n < 65536 then '\\' :: 'u' :: hex4 n
  else ('\\' :: 'u' :: hex4 (55296 + (n - 65536) / 1024)) ++
       ('\\' :: 'u' :: hex4 (56320 + (n - 65536) % 1024))

/-- CPython's `ensure_ascii` character escaping for JSON strings. -/
def escChar (c : Char) : List Char :=
  if c = '"' then ['\\', '"']
  else if c = '\\' then ['\\', '\\']
  else if c = '\n' then ['\\', 'n']
  else if c = '\r' then ['\\', 'r']
  else if c = '\t' then ['\\', 't']
  else if c.toNat = 8 then ['\\', 'b']
  else if c.toNat = 12 then ['\\', 'f']
  else if c.toNat < 32 ∨ 126 < c.toNat then uEscape c.toNat
  else [c]

/-- A JSON string literal for `s`. -/
def dumpStr (s : String) : String :=
  String.mk ('"' :: s.data.foldr (fun c acc => escChar c ++ acc) ['"'])

mutual
/-- `json.dumps` with default separators `", "` and `": "` and insertion
field order (no `sort_keys`). -/
def dumpVal : Json → String
  | .null => "null"
  | .bool true => "true"
  | .bool false => "false"
  | .num n => toString n
  | .str s => dumpStr s
  | .arr xs => "[" ++ dumpArr xs ++ "]"
  | .obj fs => "\x7b" ++ dumpObj fs ++ "\x7d"

/-- Comma-joined array elements. -/
def dumpArr : JList → String
  | .nil => ""
  | .cons x .nil => dumpVal x
  | .cons x xs => dumpVal x ++ ", " ++ dumpArr xs

/-- Comma-joined `"key": value` fields. -/
def dumpObj : JFields → String
  | .nil => ""
  | .cons k v .nil => dumpStr k ++ ": " ++ dumpVal v
  | .cons k v fs => dumpStr k ++ ": " ++ dumpVal v ++ ", " ++ dumpObj fs
end

/-- Insert a field into a key-sorted field list (keys are unique in every
object the script serializes, so ties cannot arise). -/
def insField (k : String) (v : Json) : JFields → JFields
  | .nil => .cons k v .nil
  | .cons k' v' fs =>
    if strLt k k' then .cons k v (.cons k' v' fs) else .cons k' v' (insField k v fs)

/-- Sort an object's fields by key, as `sort_keys=True` does. -/
def sortFields : JFields → JFields
  | .nil => .nil
  | .cons k v fs => insField k v (sortFields fs)

mutual
/-- Recursively sort every object's fields by key (the effect of
`sort_keys=True` at every nesting level). -/
def sortJson : Json → Json
  | .arr xs => .arr (sortJsonL xs)
  | .obj fs => .obj (sortFields (sortJsonO fs))
  | j => j

/-- `sortJson` on each array element. -/
def sortJsonL : JList → JList
  | .nil => .nil
  | .cons x xs => .cons (sortJson x) (sortJsonL xs)

/-- `sortJson` on each field value, keeping field order for `sortFields`. -/
def sortJsonO : JFields → JFields
  | .nil => .nil
  | .cons k v fs => .cons k (sortJson v) (sortJsonO fs)
end

/-- `json.dumps(..., sort_keys=True)` with default separators. -/
def dumpValSorted (j : Json) : String := dumpVal (sortJson j)

example : dumpVal (.arr (.cons (.num 1) (.cons .null .nil))) = "[1, null]" := rfl
example : dumpVal (.obj (.cons "cursor" (.str "abc") (.cons "max_id" .null .nil))) =
    "\x7b\"cursor\": \"abc\", \"max_id\": null\x7d" := rfl
example : dumpValSorted (.obj (.cons "url" (.str "u") (.cons "method" (.str "GET") .nil))) =
    "\x7b\"method\": \"GET\", \"url\": \"u\"\x7d" := rfl

/-! ### `json.load` (the subset the resume records use)

A fuel-indexed recursive-descent JSON parser: objects, arrays, strings
(with the standard escapes), integers, `true`/`false`/`null`; `none` where
CPython's `json.load` raises `ValueError`.  Floats and combined surrogate
pairs are not needed for any resume-record content the claims evaluate. -/

/-- Drop leading JSON whitespace. -/
def skipWs : List Char → List Char
  | [] => []
  | c :: cs =>
    if c = ' ' ∨ c = '\t' ∨ c = '\n' ∨ c = '\r' then skipWs cs else c :: cs

/-- Hex digit value. -/
def hexVal (c : Char) : Option Nat :=
  if 48 ≤ c.toNat ∧ c.toNat ≤ 57 then some (c.toNat - 48)
  else if 97 ≤ c.toNat ∧ c.toNat ≤ 102 then some (c.toNat - 87)
  else if 65 ≤ c.toNat ∧ c.toNat ≤ 70 then some (c.toNat - 55)
  else none

/-- Decode a single-character escape. -/
def escDecode (c : Char) : Option Char :=
  if c = '"' then some '"'
  else if c = '\\' then some '\\'
  else if c = '/' then some '/'
  else if c = 'b' then some (Char.ofNat 8)
  else if c = 'f' then some (Char.ofNat 12)
  else if c = 'n' then some '\n'
  else if c = 'r' then some '\r'
  else if c = 't' then some '\t'
  else none

/-- Parse a JSON string body after the opening quote; yields the content
characters and the input after the closing quote. -/
def parseStrBody : Nat → List Char → Option (List Char × List Char)
  | 0, _ => none
  | _, [] => none
  | fuel + 1, c :: cs =>
    if c = '"' then some ([], cs)
    else if c = '\\' then
      match cs with
      | [] => none
      | e :: cs' =>
        if e = 'u' then
          match cs' with
          | h1 :: h2 :: h3 :: h4 :: cs'' =>
            match hexVal h1, hexVal h2, hexVal h3, hexVal h4 with
            | some a, some b, some c2, some d =>
              (parseStrBody fuel cs'').map fun p =>
                (Char.ofNat (((a * 16 + b) * 16 + c2) * 16 + d) :: p.1, p.2)
            | _, _, _, _ => none
          | _ => none
        else
          match escDecode e with
          | some ch => (parseStrBody fuel cs').map fun p => (ch :: p.1, p.2)
          | none => none
    else (parseStrBody fuel cs).map fun p => (c :: p.1, p.2)

/-- Take a maximal run of decimal digits. -/
def takeDigits : List Char → List Char × List Char
  | [] => ([], [])
  | c :: cs =>
    if c.isDigit then
      let p := takeDigits cs
      (c :: p.1, p.2)
    else ([], c :: cs)

/-- Numeric value of a digit run. -/
def digitsToNat (l : List Char) : Nat :=
  l.foldl (fun acc c => acc * 10 + (c.toNat - 48)) 0

mutual
/-- Parse one JSON value (after skipping whitespace); fuel bounds the
recursion and is always sufficient when it exceeds the input length. -/
def parseVal : Nat → List Char → Option (Json × List Char)
  | 0, _ => none
  | fuel + 1, input =>
    match skipWs input with
    | [] => none
    | c :: cs =>
      if c = Char.ofNat 123 then
        match skipWs cs with
        | [] => none
        | c' :: cs' =>
          if c' = Char.ofNat 125 then some (.obj .nil, cs')
          else
            (parseFields fuel (c' :: cs')).map fun p => (Json.obj p.1, p.2)
      else if c = '[' then
        match skipWs cs with
        | [] => none
        | c' :: cs' =>
          if c' = ']' then some (.arr .nil, cs')
          else (parseItems fuel (c' :: cs')).map fun p => (Json.arr p.1, p.2)
      else if c = '"' then
        (parseStrBody (cs.length + 1) cs).map fun p => (Json.str (String.mk p.1), p.2)
      else if c = 'n' then
        match cs with
        | 'u' :: 'l' :: 'l' :: rest => some (.null, rest)
        | _ => none
      else if c = 't' then
        match cs with
        | 'r' :: 'u' :: 'e' :: rest => some (.bool true, rest)
        | _ => none
      else if c = 'f' then
        match cs with
        | 'a' :: 'l' :: 's' :: 'e' :: rest => some (.bool false, rest)
        | _ => none
      else if c = '-' then
        match takeDigits cs with
        | ([], _) => none
        | (ds, rest) => some (.num (-(digitsToNat ds : Int)), rest)
      else if c.isDigit then
        match takeDigits (c :: cs) with
        | (ds, rest) => some (.num (digitsToNat ds), rest)
      else none

/-- Parse the elements of a non-empty array up to and including `]`. -/
def parseItems : Nat → List Char → Option (JList × List Char)
  | 0, _ => none
  | fuel + 1, input =>
    match parseVal fuel input with
    | none => none
    | some (v, rest) =>
      match skipWs rest with
      | ',' :: rest' => (parseItems fuel rest').map fun p => (JList.cons v p.1, p.2)
      | ']' :: rest' => some (.cons v .nil, rest')
      | _ => none

/-- Parse the fields of a non-empty object up to and including the closing
brace. -/
def parseFields : Nat → List Char → Option (JFields × List Char)
  | 0, _ => none
  | fuel + 1, input =>
    match skipWs input with
    | [] => none
    | c :: cs =>
      if c = '"' then
        match parseStrBody (cs.length + 1) cs with
        | none => none
        | some (key, rest) =>
          match skipWs rest with
          | ':' :: rest' =>
            match parseVal fuel rest' with
            | none => none
            | some (v, rest'') =>
              match skipWs rest'' with
              | ',' :: r3 =>
                (parseFields fuel r3).map fun p =>
                  (JFields.cons (String.mk key) v p.1, p.2)
              | c4 :: r4 =>
                if c4 = Char.ofNat 125 then
                  some (.cons (String.mk key) v .nil, r4)
                else none
              | [] => none
          | _ => none
      else none
end

/-- `json.load` on a whole string: one value plus trailing whitespace, or
`none` where CPython raises `ValueError`. -/
def jsonParse (s : String) : Option Json :=
  match parseVal (s.length + 1) s.data with
  | some (j, rest) =>
    match skipWs rest with
    | [] => some j
    | _ => none
  | none => none

example : jsonParse "null" = some .null := rfl
example : jsonParse "" = none := rfl
example : jsonParse "[]" = some (.arr .nil) := rfl
example : jsonParse "not json" = none := rfl
example : jsonParse "\x7b\"cursor\": \"abc\", \"max_id\": null\x7d" =
    some (.obj (.cons "cursor" (.str "abc") (.cons "max_id" .null .nil))) := rfl
example : jsonParse "[1, -2, \"a\\n\"]" =
    some (.arr (.cons (.num 1) (.cons (.num (-2)) (.cons (.str "a\n") .nil)))) := rfl

/-! ### SHA-256 (`hashlib.sha256(...).hexdigest()`, source line 163)

Standard FIPS 180-4 SHA-256 over a byte list, with 32-bit words as `Nat`
reduced mod `2^32` where overflow matters. -/

/-- Truncate to 32 bits. -/
def w32 (n : Nat) : Nat := n % 4294967296

/-- 32-bit modular addition. -/
def add32 (a b : Nat) : Nat := (a + b) % 4294967296

/-- 32-bit right rotation (argument below `2^32`). -/
def rotr32 (x n : Nat) : Nat := ((x >>> n) ||| (x <<< (32 - n))) % 4294967296

/-- 32-bit bitwise complement (argument below `2^32`). -/
def not32 (x : Nat) : Nat := 4294967295 - x

/-- SHA-256 `Ch`. -/
def ch32 (x y z : Nat) : Nat := (x &&& y) ^^^ (not32 x &&& z)

/-- SHA-256 `Maj`. -/
def maj32 (x y z : Nat) : Nat := (x &&& y) ^^^ (x &&& z) ^^^ (y &&& z)

/-- SHA-256 `Σ0`. -/
def sigmaA (x : Nat) : Nat := rotr32 x 2 ^^^ rotr32 x 13 ^^^ rotr32 x 22

/-- SHA-256 `Σ1`. -/
def sigmaE (x : Nat) : Nat := rotr32 x 6 ^^^ rotr32 x 11 ^^^ rotr32 x 25

/-- SHA-256 `σ0`. -/
def sched0 (x : Nat) : Nat := rotr32 x 7 ^^^ rotr32 x 18 ^^^ (x >>> 3)

/-- SHA-256 `σ1`. -/
def sched1 (x : Nat) : Nat := rotr32 x 17 ^^^ rotr32 x 19 ^^^ (x >>> 10)

/-- The eight working variables / hash state. -/
structure H8 where
  a : Nat
  b : Nat
  c : Nat
  d : Nat
  e : Nat
  f : Nat
  g : Nat
  h : Nat

/-- SHA-256 round constants (decimal). -/
def K256 : List Nat :=
  [1116352408, 1899447441, 3049323471, 3921009573, 961987163, 1508970993,
   2453635748, 2870763221, 3624381080, 310598401, 607225278, 1426881987,
   1925078388, 2162078206, 2614888103, 3248222580, 3835390401, 4022224774,
   264347078, 604807628, 770255983, 1249150122, 1555081692, 1996064986,
   2554220882, 2821834349, 2952996808, 3210313671, 3336571891, 3584528711,
   113926993, 338241895, 666307205, 773529912, 1294757372, 1396182291,
   1695183700, 1986661051, 2177026350, 2456956037, 2730485921, 2820302411,
   3259730800, 3345764771, 3516065817, 3600352804, 4094571909, 275423344,
   430227734, 506948616, 659060556, 883997877, 958139571, 1322822218,
   1537002063, 1747873779, 1955562222, 2024104815, 2227730452, 2361852424,
   2428436474, 2756734187, 3204031479, 3329325298]

/-- Initial hash state (decimal). -/
def H0init : H8 :=
  ⟨1779033703, 3144134277, 1013904242, 2773480762,
   1359893119, 2600822924, 528734635, 1541459225⟩

/-- Extend the 16 block words to 64 schedule words; `acc` holds the words
newest-first. -/
def extendW : Nat → List Nat → List Nat
  | 0, acc => acc
  | n + 1, acc =>
    let w := add32 (add32 (sched1 (acc.getD 1 0)) (acc.getD 6 0))
                   (add32 (sched0 (acc.getD 14 0)) (acc.getD 15 0))
    extendW n (w :: acc)

/-- One SHA-256 round. -/
def roundStep (st : H8) (kw : Nat × Nat) : H8 :=
  let t1 := add32 st.h (add32 (sigmaE st.e) (add32 (ch32 st.e st.f st.g) (add32 kw.1 kw.2)))
  let t2 := add32 (sigmaA st.a) (maj32 st.a st.b st.c)
  ⟨add32 t1 t2, st.a, st.b, st.c, add32 st.d t1, st.e, st.f, st.g⟩

/-- Compress one 16-word block into the state. -/
def compressBlock (st : H8) (ws16 : List Nat) : H8 :=
  let ws := (extendW 48 ws16.reverse).reverse
  let r := (K256.zip ws).foldl roundStep st
  ⟨add32 st.a r.a, add32 st.b r.b, add32 st.c r.c, add32 st.d r.d,
   add32 st.e r.e, add32 st.f r.f, add32 st.g r.g, add32 st.h r.h⟩

/-- Fold all 16-word blocks of the padded message. -/
def sha256Blocks : H8 → List Nat → H8
  | st, w1 :: w2 :: w3 :: w4 :: w5 :: w6 :: w7 :: w8 ::
        w9 :: w10 :: w11 :: w12 :: w13 :: w14 :: w15 :: w16 :: rest =>
    sha256Blocks
      (compressBlock st [w1, w2, w3, w4, w5, w6, w7, w8, w9, w10, w11, w12, w13, w14, w15, w16])
      rest
  | st, _ => st

/-- Big-endian 32-bit words from the byte stream. -/
def bytesToWords : List Nat → List Nat
  | b1 :: b2 :: b3 :: b4 :: rest =>
    (((b1 * 256 + b2) * 256 + b3) * 256 + b4) :: bytesToWords rest
  | _ => []

/-- 64-bit big-endian byte encoding. -/
def be64 (n : Nat) : List Nat :=
  [n / 72057594037927936 % 256, n / 281474976710656 % 256,
   n / 1099511627776 % 256, n / 4294967296 % 256,
   n / 16777216 % 256, n / 65536 % 256, n / 256 % 256, n % 256]

/-- SHA-256 padding: `0x80`, zeros to 56 mod 64, 8-byte bit length. -/
def padMsg (msg : List Nat) : List Nat :=
  msg ++ 128 :: List.replicate ((119 - msg.length % 64) % 64) 0 ++ be64 (8 * msg.length)

/-- Hash a byte list to the final state. -/
def sha256H (msg : List Nat) : H8 := sha256Blocks H0init (bytesToWords (padMsg msg))

/-- Big-endian bytes of a 32-bit word. -/
def wordBE (n : Nat) : List Nat :=
  [n / 16777216 % 256, n / 65536 % 256, n / 256 % 256, n % 256]

/-- Two lowercase hex digits of a byte. -/
def byteHexChars (n : Nat) : List Char := [hexDigit (n / 16), hexDigit (n % 16)]

/-- `hashlib.sha256(bytes).hexdigest()`. -/
def sha256hex (msg : List Nat) : String :=
  let st := sha256H msg
  String.mk
    ((([st.a, st.b, st.c, st.d, st.e, st.f, st.g, st.h].foldr
        (fun w acc => wordBE w ++ acc) []).foldr
          (fun b acc => byteHexChars b ++ acc) []))

/-- UTF-8 bytes of one character (`str.encode('utf-8')`). -/
def charUtf8 (c : Char) : List Nat :=
  let n := c.toNat
  if n < 128 then [n]
  else if n < 2048 then [192 + n / 64, 128 + n % 64]
  else if n < 65536 then [224 + n / 4096, 128 + n / 64 % 64, 128 + n % 64]
  else [240 + n / 262144, 128 + n / 4096 % 64, 128 + n / 64 % 64, 128 + n % 64]

/-- UTF-8 bytes of a string (`s.encode('utf-8')`). -/
def strBytes (s : String) : List Nat :=
  s.data.foldr (fun c acc => charUtf8 c ++ acc) []

example : sha256hex (strBytes "") =
    "e3b0c44298fc1c149afbf4c8996fb92427ae41e4649b934ca495991b7852b855" := rfl
example : sha256hex (strBytes "abc") =
    "ba7816bf8f01cfea414140de5dae2223b00361a396177a9cb410ff61f20015ad" := rfl

/-! ### The request fingerprint (source lines 134-163)

`req_args` starts as `{'params': {}}`; with GET the `-d` data dict becomes
`params`, with POST it becomes `data` (form) or `json` (JSON body) while
`params` stays empty.  Lines 151-159 read any caller-supplied `cursor` /
`max_id` out of `req_args['params']` but do not remove them.  Line 161
merges `{'method': method, 'url': url, **req_args}`, line 162 serializes it
with `json.dumps(..., sort_keys=True)` and line 163 hashes the UTF-8 bytes
with SHA-256.  The in-loop mutation of `req_args['params']` (line 184)
happens after the hash is computed and cannot affect it. -/

/-- The three request body modes the argument parser can produce. -/
inductive BodyMode where
  | get
  | postForm
  | postJson

/-- String-valued fields from a string association list. -/
def strFields : List (String × String) → JFields
  | [] => .nil
  | (k, v) :: t => .cons k (.str v) (strFields t)

/-- The `-d` data dict as a JSON object.  A Python dict iterates in
insertion order with unique keys; since every serialization of it sorts
keys, the canonical key-sorted, last-wins form `mkDict` serializes
identically. -/
def dictJson (d : List (String × String)) : Json := .obj (strFields (mkDict d))

/-- `req_data` before serialization:
`{'method': method, 'url': url, **req_args}` (source line 161). -/
def reqDataJson (mode : BodyMode) (url : String) (d : List (String × String)) : Json :=
  match mode with
  | .get =>
    .obj (.cons "method" (.str "GET")
      (.cons "url" (.str url) (.cons "params" (dictJson d) .nil)))
  | .postForm =>
    .obj (.cons "method" (.str "POST")
      (.cons "url" (.str url)
        (.cons "params" (.obj .nil) (.cons "data" (dictJson d) .nil))))
  | .postJson =>
    .obj (.cons "method" (.str "POST")
      (.cons "url" (.str url)
        (.cons "params" (.obj .nil) (.cons "json" (dictJson d) .nil))))

/-- `req_data = json.dumps(req_data, sort_keys=True)` (source line 162). -/
def reqData (mode : BodyMode) (url : String) (d : List (String × String)) : String :=
  dumpValSorted (reqDataJson mode url d)

/-- `req_hash = hashlib.sha256(req_data.encode('utf-8')).hexdigest()`
(source line 163). -/
def reqHash (mode : BodyMode) (url : String) (d : List (String × String)) : String :=
  sha256hex (strBytes (reqData mode url d))

example : reqData .get "u" [("cursor", "1")] =
    "\x7b\"method\": \"GET\", \"params\": \x7b\"cursor\": \"1\"\x7d, \"url\": \"u\"\x7d" := rfl

/-! ### The resume record (source lines 169-188, 270-274)

The record file is opened with mode `a+` (so it always exists), read with
`json.load`, and rewritten with `json.dump({'cursor': cursor, 'max_id':
max_id}, fd)` after `truncate()`. -/

/-- `json.dump({'cursor': cursor, 'max_id': max_id}, fd)` (source line
188); plain dict literal order, no `sort_keys`. -/
def dumpRecord (c m : Json) : String :=
  dumpVal (.obj (.cons "cursor" c (.cons "max_id" m .nil)))

/-- Source lines 172-178: `json.load` then `data.get('cursor')` /
`data.get('max_id')`.  `ValueError` (empty or unparsable file) and
`FileNotFoundError` are caught, leaving both fields `None`; but if the file
holds valid JSON that is not an object, `data.get` raises an uncaught
`AttributeError` — modelled as `none`. -/
def loadRecord (content : String) : Option (Json × Json) :=
  match jsonParse content with
  | none => some (.null, .null)
  | some (.obj fs) =>
    some ((jlookup fs "cursor").getD .null, (jlookup fs "max_id").getD .null)
  | some _ => none

/-- Source lines 270-274: `os.remove` inside `try ... except
FileNotFoundError: pass` — deleting succeeds whether or not the file still
exists. -/
def clearResume (fileExists : Bool) : Except Unit Unit :=
  if fileExists then Except.ok () else Except.ok ()

example : loadRecord (dumpRecord (.str "abc") .null) = some (.str "abc", .null) := rfl
example : loadRecord "" = some (.null, .null) := rfl

/-! ### The request loop (source lines 183-268)

`runLoop cfg c m atts` runs the `while True:` loop from continuation state
`(cursor, max_id) = (c, m)`, consuming one element of `atts` per
`session.request` call; it returns the ordered observable events, how the
loop ended, and the final value of `cursor` (which decides resume-file
deletion at lines 270-274).  `time.sleep` of a negative duration raises
`ValueError` in Python; the model checks this before every sleep
(`Outcome.sleepError`). -/

/-- The command-line configuration the loop reads. -/
structure Config where
  followCursor : Bool
  ignoreRatelimit : Bool
  wait : Rat
  ratelimit : Rat
  now : Rat

/-- A response body: parsed JSON, or raw text where `r.json()` raises
`JSONDecodeError` (source lines 216-219). -/
inductive RBody where
  | jsonB (j : Json)
  | textB (s : String)

/-- One HTTP response.  A rate-limit header is `none` when absent or the
empty string (both falsy and both `float(h or 0) = 0`); `some q` is a
non-empty numeric header of value `q`. -/
structure Resp where
  status : Nat
  rlRemain : Option Rat
  rlReset : Option Rat
  body : RBody

/-- What one `session.request` call produces: a response, or a raised
transport-level exception (connection/DNS/TLS), which nothing catches. -/
inductive Attempt where
  | resp (r : Resp)
  | transportFail

/-- Observable actions of the loop, in order: rewriting the resume record
(lines 186-188), dispatching the request (line 192), sleeping, printing a
body to stdout (line 221). -/
inductive Event where
  | save (c m : Json)
  | send (c m : Json)
  | sleep (d : Rat)
  | emit (j : Json)

/-- How a run ended: normal loop exit (`break`), `raise_for_status` on a
4xx/5xx, an uncaught transport exception, `ZeroDivisionError` from the
pacing division (line 260), `ValueError` from a negative `time.sleep`, or
the supplied attempt list ran out with the loop still going. -/
inductive Outcome where
  | finished
  | httpError (status : Nat)
  | transportError
  | zeroDiv
  | sleepError
  | ranOut
deriving DecidableEq

/-- Trace, outcome and final `cursor` value of a run. -/
structure RunResult where
  trace : List Event
  outcome : Outcome
  finalCursor : Json

/-- The parsed response value `resp` (source lines 213-219): `''` for 204,
otherwise the JSON body or the raw text fallback. -/
def respValue (r : Resp) : Json :=
  if r.status = 204 then .str ""
  else
    match r.body with
    | .jsonB j => j
    | .textB s => .str s

/-- Source lines 226-229: `cursor = resp.get('next_cursor')` replaces the
cursor (with `None` when the field is absent) whenever `resp` is a dict;
any other shape raises `AttributeError`, which is passed over, leaving the
cursor unchanged. -/
def extractCursor (v c : Json) : Json :=
  match v with
  | .obj fs => (jlookup fs "next_cursor").getD .null
  | _ => c

/-- Source lines 231-238: `max_id = resp[-1]['id']` with
`AttributeError`/`IndexError`/`KeyError`/`TypeError` passed over; the
second component is the stall test `max_id == old_max_id` (true only when
the assignment succeeded). -/
def extractMaxId (v m : Json) : Json × Bool :=
  match v with
  | .arr xs =>
    match jlast xs with
    | some (.obj g) =>
      match jlookup g "id" with
      | some newId => (newId, pyEq newId m)
      | none => (m, false)
    | _ => (m, false)
  | _ => (m, false)

/-- Python's `max` on rationals (first argument wins ties). -/
def rmax (a b : Rat) : Rat := if a < b then b else a

/-- The steady-state pacing computation, source lines 254-265 (inside the
`else` of `args.ignore_ratelimit`): with both headers non-empty,
`delay = max((reset - now) / remaining, 0)` — where a `"0"` remaining
header is non-empty, hence truthy, and makes `float(rl_remain)` zero, so
the division raises `ZeroDivisionError` (`crash`); with either header
absent or empty, the fixed `args.wait` is used. -/
inductive PacingOutcome where
  | sleep (d : Rat)
  | crash
deriving DecidableEq

/-- See `PacingOutcome`. -/
def steadyPacing (rlRemain rlReset : Option Rat) (now wait : Rat) : PacingOutcome :=
  match rlRemain, rlReset with
  | some remain, some reset =>
    if remain = 0 then .crash
    else .sleep (rmax ((reset - now) / remain) 0)
  | _, _ => .sleep wait

/-- The inter-page pacing block, source lines 243-265: with
`--ignore-ratelimit`, sleep `args.wait` if nonzero; otherwise run the
steady-state computation.  `Except.error` carries the uncaught exception
(`ZeroDivisionError`, or `ValueError` for a negative sleep). -/
def pacingResult (cfg : Config) (r : Resp) : Except Outcome (List Event) :=
  if cfg.ignoreRatelimit = true then
    if cfg.wait ≠ 0 then
      if 0 ≤ cfg.wait then .ok [.sleep cfg.wait] else .error .sleepError
    else .ok []
  else
    match steadyPacing r.rlRemain r.rlReset cfg.now cfg.wait with
    | .crash => .error .zeroDiv
    | .sleep d => if 0 ≤ d then .ok [.sleep d] else .error .sleepError

/-- The `while True:` loop, source lines 183-268.  Each iteration: merge
the continuation into the wire parameters and rewrite the resume record
with exactly those values (lines 184-188), send (line 192), then classify:
rate-limited (420/429, lines 200-211) sleeps and retries with unchanged
state, emitting nothing; otherwise the body is emitted (line 221),
`raise_for_status` aborts on status ≥ 400 (lines 223-224), the
continuation is advanced (lines 226-238 — with `break` on a stalled
`max_id`), `--follow-cursor` gates continuing (line 240), pacing sleeps
(lines 243-265), and the loop stops unless a continuation value remains
(line 267). -/
def runLoop (cfg : Config) : Json → Json → List Attempt → RunResult
  | c, _, [] => ⟨[], .ranOut, c⟩
  | c, m, .transportFail :: _ => ⟨[.save c m, .send c m], .transportError, c⟩
  | c, m, .resp r :: rest =>
    if r.status = 420 ∨ r.status = 429 then
      let reset := r.rlReset.getD 0
      let d := if reset ≠ 0 ∧ 0 < reset then reset - cfg.now else cfg.ratelimit
      if 0 ≤ d then
        let res := runLoop cfg c m rest
        ⟨.save c m :: .send c m :: .sleep d :: res.trace, res.outcome, res.finalCursor⟩
      else ⟨[.save c m, .send c m], .sleepError, c⟩
    else
      let v := respValue r
      if r.status < 400 then
        let c' := extractCursor v c
        let em := extractMaxId v m
        if em.2 = true then ⟨[.save c m, .send c m, .emit v], .finished, c'⟩
        else if cfg.followCursor = true then
          match pacingResult cfg r with
          | .error o => ⟨[.save c m, .send c m, .emit v], o, c'⟩
          | .ok evs =>
            if cfg.followCursor = true ∧ (jtruthy c' = true ∨ jtruthy em.1 = true) then
              let res := runLoop cfg c' em.1 rest
              ⟨[.save c m, .send c m, .emit v] ++ evs ++ res.trace,
                res.outcome, res.finalCursor⟩
            else ⟨[.save c m, .send c m, .emit v] ++ evs, .finished, c'⟩
        else ⟨[.save c m, .send c m, .emit v], .finished, c'⟩
      else ⟨[.save c m, .send c m, .emit v], .httpError r.status, c⟩

/-- Source lines 270-274 as a decision: after the `with` block the record
file is removed exactly when the loop exited normally (no exception
propagated past line 268) and `not cursor` holds. -/
def deletesResume (cfg : Config) (c m : Json) (atts : List Attempt) : Bool :=
  let res := runLoop cfg c m atts
  res.outcome == Outcome.finished && !(jtruthy res.finalCursor)

/-- Number of dispatched requests in a trace. -/
def countSends (tr : List Event) : Nat :=
  tr.countP fun e =>
    match e with
    | .send _ _ => true
    | _ => false

/-- Saves and sends come in adjacent pairs carrying the same continuation
values: every send is immediately preceded by a resume-record write of
exactly the values being sent, and every record write is immediately
followed by its send. -/
def goodTrace : List Event → Prop
  | [] => True
  | .save c m :: .send c' m' :: rest => c = c' ∧ m = m' ∧ goodTrace rest
  | .save _ _ :: _ => False
  | .send _ _ :: _ => False
  | .sleep _ :: rest => goodTrace rest
  | .emit _ :: rest => goodTrace rest

example :
    runLoop ⟨true, true, 5, 900, 0⟩ .null .null
      [.resp ⟨200, none, none, .jsonB (.obj .nil)⟩] =
    ⟨[.save .null .null, .send .null .null, .emit (.obj .nil), .sleep 5],
      .finished, .null⟩ := rfl

example :
    runLoop ⟨true, true, 0, 900, 0⟩ (.str "abc") .null
      [.resp ⟨200, none, none, .jsonB (.arr (.cons (.obj (.cons "id" (.num 42) .nil)) .nil))⟩,
       .resp ⟨200, none, none, .jsonB (.arr (.cons (.obj (.cons "id" (.num 42) .nil)) .nil))⟩,
       .transportFail] =
    ⟨[.save (.str "abc") .null, .send (.str "abc") .null,
      .emit (.arr (.cons (.obj (.cons "id" (.num 42) .nil)) .nil)),
      .save (.str "abc") (.num 42), .send (.str "abc") (.num 42),
      .emit (.arr (.cons (.obj (.cons "id" (.num 42) .nil)) .nil))],
      .finished, .str "abc"⟩ := rfl

example :
    (runLoop ⟨true, false, 3, 900, 0⟩ .null .null
      [.resp ⟨200, some 0, some 100, .jsonB (.obj (.cons "next_cursor" (.str "A") .nil))⟩]).outcome =
    .zeroDiv := rfl

/-! ## Claims -/

/-- C2 (counterexample): the claim says that with `remaining = 0` the
fixed-wait fallback is used "instead of any division by zero"; but a `"0"`
remaining header is a non-empty string, hence truthy at line 258, and
`float("0")` makes line 260 divide by zero.  Concretely (remaining 0, reset
100, now 0, fixed wait 3) the pacing computation raises
`ZeroDivisionError` and is not the fallback sleep of 3. -/
theorem c2_pacing_counterexample :
    steadyPacing (some 0) (some 100) 0 3 = PacingOutcome.crash ∧
    steadyPacing (some 0) (some 100) 0 3 ≠ PacingOutcome.sleep 3 := by
  exact ⟨rfl, by decide⟩

/-- C2 (amended): for every successful response carrying both headers with
`remaining > 0`, the steady-state delay is `max((reset_epoch - now) /
remaining, 0)` (for integer `remaining ≥ 1` this agrees with the claim's
`max(remaining, 1)` form); in particular remaining 10 and reset `now + 100`
give exactly 10; if either header is absent or empty the fixed wait is
used.  With a `remaining = 0` header the code raises `ZeroDivisionError`
rather than using the fallback (see the counterexample). -/
theorem c2_pacing_formula (remain reset now wait : Rat) (hpos : 0 < remain) :
    steadyPacing (some remain) (some reset) now wait =
      .sleep (rmax ((reset - now) / remain) 0) ∧
    steadyPacing (some 10) (some (now + 100)) now wait = .sleep 10 ∧
    steadyPacing none (some reset) now wait = .sleep wait ∧
    steadyPacing (some remain) none now wait = .sleep wait := by
  refine ⟨?_, ?_, rfl, rfl⟩
  · rw [steadyPacing, if_neg (ne_of_gt hpos)]
  · rw [steadyPacing]
    norm_num [rmax]

/-- C2 witness: the amended pacing facts at remaining 5, reset 20, now 0,
wait 7. -/
theorem c2_pacing_formula_witness :
    steadyPacing (some 5) (some 20) 0 7 = .sleep (rmax ((20 - 0) / 5) 0) ∧
    steadyPacing (some 10) (some ((0 : Rat) + 100)) 0 7 = .sleep 10 ∧
    steadyPacing none (some 20) 0 7 = .sleep 7 ∧
    steadyPacing (some 5) none 0 7 = .sleep 7 :=
  c2_pacing_formula 5 20 0 7 (by norm_num)

/-- C6 (counterexample): the claim says a malformed record file loads as
`{null, null}` rather than an error; but a record file holding `[]` — valid
JSON that is not an object — parses successfully at line 174, and then
`data.get('cursor')` at line 175 raises `AttributeError`, which the
`except (FileNotFoundError, ValueError)` clause does not catch: the load
crashes instead of yielding `{null, null}`. -/
theorem c6_load_counterexample :
    loadRecord "[]" = none ∧ loadRecord "[]" ≠ some (Json.null, Json.null) :=
  ⟨rfl, fun h => Option.noConfusion h⟩

/-- C6 (amended): saving `{cursor: "abc", max_id: null}` and loading it
back yields exactly `{cursor: "abc", max_id: null}`; loading an empty,
absent (the `a+` open creates an empty file), or non-JSON-parsable record
yields `{null, null}`.  A record holding valid JSON that is not an object
instead raises an uncaught `AttributeError` (see the counterexample). -/
theorem c6_record_roundtrip :
    loadRecord (dumpRecord (.str "abc") .null) = some (.str "abc", .null) ∧
    loadRecord "" = some (.null, .null) ∧
    loadRecord "\x7bnot json" = some (.null, .null) ∧
    loadRecord "garbage" = some (.null, .null) :=
  ⟨rfl, rfl, rfl, rfl⟩

/-- Events that are neither a resume-record write nor a send. -/
def plainEv : Event → Prop
  | .sleep _ => True
  | .emit _ => True
  | .save _ _ => False
  | .send _ _ => False

theorem goodTrace_append {evs l : List Event} (hp : ∀ e ∈ evs, plainEv e)
    (h : goodTrace l) : goodTrace (evs ++ l) := by
  induction evs with
  | nil => simpa using h
  | cons e t ih =>
    have he := hp e (List.mem_cons_self _ _)
    have ht : goodTrace (t ++ l) := ih fun e' he' => hp e' (List.mem_cons_of_mem _ he')
    cases e with
    | sleep d => exact ht
    | emit j => exact ht
    | save c m => exact he.elim
    | send c m => exact he.elim

theorem pacingResult_plain {cfg : Config} {r : Resp} {evs : List Event}
    (h : pacingResult cfg r = .ok evs) : ∀ e ∈ evs, plainEv e := by
  unfold pacingResult at h
  split at h
  · split at h
    · split at h
      · have hev : [Event.sleep cfg.wait] = evs := Except.ok.inj h
        subst hev
        intro e he
        rcases List.mem_singleton.mp he with rfl
        trivial
      · exact absurd h (by simp)
    · have hev : ([] : List Event) = evs := Except.ok.inj h
      subst hev
      intro e he
      simp at he
  · split at h
    · exact absurd h (by simp)
    · split at h
      · have hev : _ = evs := Except.ok.inj h
        subst hev
        intro e he
        rcases List.mem_singleton.mp he with rfl
        trivial
      · exact absurd h (by simp)

theorem goodTrace_plain {evs : List Event} (hp : ∀ e ∈ evs, plainEv e) :
    goodTrace evs := by
  have h := @goodTrace_append evs [] hp trivial
  simpa using h

/-- C5: in every run — whatever the initial continuation state, the
configuration, and the sequence of responses, rate-limit retries and
transport failures — every dispatched request is immediately preceded by a
rewrite of the resume record carrying exactly the cursor and max_id values
about to be sent, and every record rewrite is immediately followed by its
send; so at any interruption point the persisted record holds the
last-sent (or about-to-be-sent) continuation values. -/
theorem c5_save_before_send (cfg : Config) (c m : Json) (atts : List Attempt) :
    goodTrace (runLoop cfg c m atts).trace := by
  induction atts generalizing c m with
  | nil => exact trivial
  | cons a rest ih =>
    cases a with
    | transportFail => exact ⟨rfl, rfl, trivial⟩
    | resp r =>
      simp only [runLoop]
      split
      · split
        · split
          · exact ⟨rfl, rfl, ih c m⟩
          · exact ⟨rfl, rfl, trivial⟩
        · split
          · exact ⟨rfl, rfl, ih c m⟩
          · exact ⟨rfl, rfl, trivial⟩
      · split
        · split
          · exact ⟨rfl, rfl, trivial⟩
          · split
            · split
              · exact ⟨rfl, rfl, trivial⟩
              · next evs hok =>
                split
                · exact ⟨rfl, rfl,
                    @goodTrace_append evs _ (pacingResult_plain hok) (ih _ _)⟩
                · exact ⟨rfl, rfl,
                    @goodTrace_plain evs (pacingResult_plain hok)⟩
            · exact ⟨rfl, rfl, trivial⟩
        · exact ⟨rfl, rfl, trivial⟩

/-- C3: for a rate-limited response (status 420 or 429): if the reset
header is present and in the future, the loop sleeps exactly `reset - now`
seconds and then retries the same request with unchanged cursor/max_id
values, emitting no output for the throttled attempt; if the reset value is
absent or non-positive, it sleeps the configured fallback duration
(non-negative as configured; 900 s by default) and likewise retries —
never aborting. -/
theorem c3_ratelimit_retry (cfg : Config) (c m : Json) (r : Resp)
    (rest : List Attempt) (hst : r.status = 420 ∨ r.status = 429) :
    (∀ t : Rat, r.rlReset = some t → cfg.now < t → 0 ≤ cfg.now →
      runLoop cfg c m (.resp r :: rest) =
        ⟨Event.save c m :: Event.send c m :: Event.sleep (t - cfg.now) ::
            (runLoop cfg c m rest).trace,
          (runLoop cfg c m rest).outcome, (runLoop cfg c m rest).finalCursor⟩) ∧
    (r.rlReset.getD 0 ≤ 0 → 0 ≤ cfg.ratelimit →
      runLoop cfg c m (.resp r :: rest) =
        ⟨Event.save c m :: Event.send c m :: Event.sleep cfg.ratelimit ::
            (runLoop cfg c m rest).trace,
          (runLoop cfg c m rest).outcome, (runLoop cfg c m rest).finalCursor⟩) := by
  constructor
  · intro t hreset hfut hnow
    have hpos : (0 : Rat) < t := lt_of_le_of_lt hnow hfut
    have hc1 : t ≠ 0 ∧ 0 < t := ⟨ne_of_gt hpos, hpos⟩
    simp only [runLoop, if_pos hst, hreset, Option.getD_some, if_pos hc1]
    rw [if_pos (show (0 : Rat) ≤ t - cfg.now from by linarith)]
  · intro hle hrl
    simp only [runLoop, if_pos hst]
    have hcond : ¬(r.rlReset.getD 0 ≠ 0 ∧ 0 < r.rlReset.getD 0) := by
      rintro ⟨h1, h2⟩
      linarith
    rw [if_neg hcond, if_pos hrl]

/-- C3 witness: a 429 with reset 50 at now 10 sleeps 40 and retries (then
runs out of supplied responses); a 420 without a reset header sleeps the
900-second fallback and retries. -/
theorem c3_ratelimit_retry_witness :
    runLoop ⟨false, false, 0, 900, 10⟩ .null .null
        [.resp ⟨429, none, some 50, .jsonB .null⟩] =
      ⟨[.save .null .null, .send .null .null, .sleep (50 - 10)], .ranOut, .null⟩ ∧
    runLoop ⟨false, false, 0, 900, 10⟩ .null .null
        [.resp ⟨420, none, none, .jsonB .null⟩] =
      ⟨[.save .null .null, .send .null .null, .sleep 900], .ranOut, .null⟩ := by
  constructor
  · exact (c3_ratelimit_retry ⟨false, false, 0, 900, 10⟩ .null .null
      ⟨429, none, some 50, .jsonB .null⟩ [] (Or.inr rfl)).1 50 rfl
      (by norm_num) (by norm_num)
  · exact (c3_ratelimit_retry ⟨false, false, 0, 900, 10⟩ .null .null
      ⟨420, none, none, .jsonB .null⟩ [] (Or.inl rfl)).2 (by norm_num) (by norm_num)

/-- C7: the resume record is deleted exactly when the loop terminates
normally with a falsy (`None`/empty) cursor; on a transport failure or a
reported HTTP error the exception propagates past the deletion code, so
the record survives with the last-saved state (the save/send pairing of
the trace); and deleting tolerates a missing file (`FileNotFoundError` is
caught). -/
theorem c7_resume_clear (cfg : Config) (c m : Json) (atts : List Attempt) :
    ((runLoop cfg c m atts).outcome = .transportError →
      deletesResume cfg c m atts = false) ∧
    (∀ s, (runLoop cfg c m atts).outcome = .httpError s →
      deletesResume cfg c m atts = false) ∧
    ((runLoop cfg c m atts).outcome = .finished →
      (deletesResume cfg c m atts = true ↔
        jtruthy (runLoop cfg c m atts).finalCursor = false)) ∧
    runLoop cfg c m (.transportFail :: atts) =
      ⟨[.save c m, .send c m], .transportError, c⟩ ∧
    (∀ b, clearResume b = Except.ok ()) := by
  refine ⟨?_, ?_, ?_, rfl, fun b => by cases b <;> rfl⟩
  · intro h
    simp [deletesResume, h]
  · intro s h
    simp [deletesResume, h]
  · intro h
    simp [deletesResume, h]

/-- C7 witness: a transport failure deletes nothing; a 404 deletes nothing
(cursor "A" still saved); a clean stop on a cursorless mapping body deletes
the record; clearing succeeds with and without the file present. -/
theorem c7_resume_clear_witness :
    deletesResume ⟨false, false, 0, 900, 0⟩ (.str "A") .null [.transportFail] = false ∧
    deletesResume ⟨false, false, 0, 900, 0⟩ (.str "A") .null
      [.resp ⟨404, none, none, .textB "Not Found"⟩] = false ∧
    (deletesResume ⟨false, false, 0, 900, 0⟩ (.str "A") .null
        [.resp ⟨200, none, none, .jsonB (.obj .nil)⟩] = true ↔
      jtruthy (runLoop ⟨false, false, 0, 900, 0⟩ (.str "A") .null
        [.resp ⟨200, none, none, .jsonB (.obj .nil)⟩]).finalCursor = false) ∧
    clearResume true = Except.ok () ∧ clearResume false = Except.ok () := by
  refine ⟨?_, ?_, ?_, ?_, ?_⟩
  · exact (c7_resume_clear ⟨false, false, 0, 900, 0⟩ (.str "A") .null [.transportFail]).1 rfl
  · exact (c7_resume_clear ⟨false, false, 0, 900, 0⟩ (.str "A") .null
      [.resp ⟨404, none, none, .textB "Not Found"⟩]).2.1 404 rfl
  · exact (c7_resume_clear ⟨false, false, 0, 900, 0⟩ (.str "A") .null
      [.resp ⟨200, none, none, .jsonB (.obj .nil)⟩]).2.2.1 rfl
  · exact (c7_resume_clear ⟨false, false, 0, 900, 0⟩ .null .null []).2.2.2.2 true
  · exact (c7_resume_clear ⟨false, false, 0, 900, 0⟩ .null .null []).2.2.2.2 false

/-- C8 (counterexample): the claim covers every non-2xx status, but the
code's error test is `r.ok`, i.e. `status < 400`; a 304 — non-2xx — is
emitted without any reported error, and with a `next_cursor` in its body
the loop keeps going: two requests are dispatched and the run ends by
exhausting the supplied responses, not with an HTTP error. -/
theorem c8_counterexample :
    countSends (runLoop ⟨true, true, 0, 900, 0⟩ .null .null
      [.resp ⟨304, none, none, .jsonB (.obj (.cons "next_cursor" (.str "A") .nil))⟩,
       .resp ⟨304, none, none, .jsonB (.obj (.cons "next_cursor" (.str "A") .nil))⟩]).trace
      = 2 ∧
    (runLoop ⟨true, true, 0, 900, 0⟩ .null .null
      [.resp ⟨304, none, none, .jsonB (.obj (.cons "next_cursor" (.str "A") .nil))⟩,
       .resp ⟨304, none, none, .jsonB (.obj (.cons "next_cursor" (.str "A") .nil))⟩]).outcome
      = .ranOut := ⟨rfl, rfl⟩

/-- C8 (amended): for every non-rate-limited response with status ≥ 400,
the response body (parsed, or raw text) is emitted to standard output
first, and then the loop stops with the HTTP error — no further request is
attempted, whatever responses would have followed. -/
theorem c8_http_error (cfg : Config) (c m : Json) (r : Resp) (rest : List Attempt)
    (hnr : ¬(r.status = 420 ∨ r.status = 429)) (herr : ¬r.status < 400) :
    runLoop cfg c m (.resp r :: rest) =
      ⟨[.save c m, .send c m, .emit (respValue r)], .httpError r.status, c⟩ := by
  simp only [runLoop, if_neg hnr, if_neg herr]

/-- C8 witness: a 404 with unparsable body text emits the raw text and
stops with the error, leaving a supplied follow-up response unused. -/
theorem c8_http_error_witness :
    runLoop ⟨true, true, 0, 900, 0⟩ .null .null
      [.resp ⟨404, none, none, .textB "Not Found"⟩,
       .resp ⟨200, none, none, .jsonB .null⟩] =
      ⟨[.save .null .null, .send .null .null, .emit (.str "Not Found")],
        .httpError 404, .null⟩ :=
  c8_http_error ⟨true, true, 0, 900, 0⟩ .null .null ⟨404, none, none, .textB "Not Found"⟩
    [.resp ⟨200, none, none, .jsonB .null⟩] (by decide) (by decide)

/-- C10: whenever the parsed body is a mapping (and the response is
neither rate-limited, nor an error, nor a bodyless 204), the cursor is
unconditionally replaced by the body's `next_cursor` value — `None` when
the field is absent — so a mapping body without `next_cursor` clears any
previously held cursor. -/
theorem c10_cursor_overwrite (cfg : Config) (c m : Json) (r : Resp) (fs : JFields)
    (hnr : ¬(r.status = 420 ∨ r.status = 429)) (hok : r.status < 400)
    (h204 : r.status ≠ 204) (hbody : r.body = .jsonB (.obj fs)) :
    (runLoop cfg c m [.resp r]).finalCursor =
      (jlookup fs "next_cursor").getD .null := by
  have hv : respValue r = .obj fs := by
    simp [respValue, h204, hbody]
  simp only [runLoop, if_neg hnr, if_pos hok, hv, extractCursor, extractMaxId]
  split
  · rfl
  · split
    · split
      · rfl
      · split
        · rfl
        · rfl
    · rfl

/-- C10 witness: a previously held cursor "abc" is cleared to `None` by a
mapping body without `next_cursor`. -/
theorem c10_cursor_overwrite_witness :
    (runLoop ⟨true, true, 0, 900, 0⟩ (.str "abc") .null
      [.resp ⟨200, none, none, .jsonB (.obj .nil)⟩]).finalCursor =
      (jlookup .nil "next_cursor").getD .null :=
  c10_cursor_overwrite ⟨true, true, 0, 900, 0⟩ (.str "abc") .null
    ⟨200, none, none, .jsonB (.obj .nil)⟩ .nil (by decide) (by decide) (by decide) rfl

/-- C9 (counterexample): the claim says no pacing delay is slept whenever
the loop is about to stop, including when both continuation fields are
empty; but the emptiness check (source line 267) runs only after the
pacing sleep (lines 243-265).  Concretely: `--follow-cursor` with wait 5,
one 200 response whose body is the empty mapping — the run stops after its
single request with a null cursor, yet a pacing sleep of 5 seconds was
performed before stopping. -/
theorem c9_counterexample :
    runLoop ⟨true, true, 5, 900, 0⟩ .null .null
        [.resp ⟨200, none, none, .jsonB (.obj .nil)⟩] =
      ⟨[.save .null .null, .send .null .null, .emit (.obj .nil), .sleep 5],
        .finished, .null⟩ ∧
    Event.sleep 5 ∈ (runLoop ⟨true, true, 5, 900, 0⟩ .null .null
      [.resp ⟨200, none, none, .jsonB (.obj .nil)⟩]).trace := by
  have h : runLoop ⟨true, true, 5, 900, 0⟩ .null .null
      [.resp ⟨200, none, none, .jsonB (.obj .nil)⟩] =
      ⟨[.save .null .null, .send .null .null, .emit (.obj .nil), .sleep 5],
        .finished, .null⟩ := rfl
  refine ⟨h, ?_⟩
  rw [h]
  simp

/-- C9 (amended): the pacing sleep is indeed skipped when the loop stops
because of stall detection or because continuation following is disabled
(in both cases the iteration's trace ends at the emit, with no sleep); but
when the loop stops because both continuation fields are empty, the pacing
delay is slept first — the emptiness check runs after the sleep (see the
counterexample). -/
theorem c9_no_pacing_on_stop (cfg : Config) (c m : Json) (r : Resp)
    (rest : List Attempt)
    (hnr : ¬(r.status = 420 ∨ r.status = 429)) (hok : r.status < 400) :
    ((extractMaxId (respValue r) m).2 = true →
      runLoop cfg c m (.resp r :: rest) =
        ⟨[.save c m, .send c m, .emit (respValue r)], .finished,
          extractCursor (respValue r) c⟩) ∧
    (cfg.followCursor = false →
      runLoop cfg c m (.resp r :: rest) =
        ⟨[.save c m, .send c m, .emit (respValue r)], .finished,
          extractCursor (respValue r) c⟩) := by
  constructor
  · intro hstall
    simp only [runLoop, if_neg hnr, if_pos hok, if_pos hstall]
  · intro hf
    simp only [runLoop, if_neg hnr, if_pos hok]
    split
    · rfl
    · rw [if_neg (by simp [hf] : ¬cfg.followCursor = true)]

/-- C9 witness: a stalled page (id 42 equal to the held max_id) and a
run without `--follow-cursor` both stop with no pacing sleep in the
trace, although a 5-second wait is configured. -/
theorem c9_no_pacing_on_stop_witness :
    runLoop ⟨true, true, 5, 900, 0⟩ .null (.num 42)
        [.resp ⟨200, none, none,
          .jsonB (.arr (.cons (.obj (.cons "id" (.num 42) .nil)) .nil))⟩] =
      ⟨[.save .null (.num 42), .send .null (.num 42),
        .emit (.arr (.cons (.obj (.cons "id" (.num 42) .nil)) .nil))],
        .finished, .null⟩ ∧
    runLoop ⟨false, true, 5, 900, 0⟩ (.str "abc") .null
        [.resp ⟨200, none, none, .jsonB (.obj (.cons "next_cursor" (.str "B") .nil))⟩] =
      ⟨[.save (.str "abc") .null, .send (.str "abc") .null,
        .emit (.obj (.cons "next_cursor" (.str "B") .nil))],
        .finished, .str "B"⟩ := by
  constructor
  · exact (c9_no_pacing_on_stop ⟨true, true, 5, 900, 0⟩ .null (.num 42)
      ⟨200, none, none, .jsonB (.arr (.cons (.obj (.cons "id" (.num 42) .nil)) .nil))⟩
      [] (by decide) (by decide)).1 rfl
  · exact (c9_no_pacing_on_stop ⟨false, true, 5, 900, 0⟩ (.str "abc") .null
      ⟨200, none, none, .jsonB (.obj (.cons "next_cursor" (.str "B") .nil))⟩
      [] (by decide) (by decide)).2 rfl

theorem runLoop_stall (cfg : Config) (c m : Json) (r : Resp) (rest : List Attempt)
    (hnr : ¬(r.status = 420 ∨ r.status = 429)) (hok : r.status < 400)
    (hstall : (extractMaxId (respValue r) m).2 = true) :
    runLoop cfg c m (.resp r :: rest) =
      ⟨[.save c m, .send c m, .emit (respValue r)], .finished,
        extractCursor (respValue r) c⟩ := by
  simp only [runLoop, if_neg hnr, if_pos hok, if_pos hstall]

theorem runLoop_advance (cfg : Config) (c m : Json) (r : Resp) (rest : List Attempt)
    (evs : List Event)
    (hnr : ¬(r.status = 420 ∨ r.status = 429)) (hok : r.status < 400)
    (hstall : (extractMaxId (respValue r) m).2 = false)
    (hf : cfg.followCursor = true)
    (hpace : pacingResult cfg r = .ok evs)
    (hcont : jtruthy (extractCursor (respValue r) c) = true ∨
      jtruthy (extractMaxId (respValue r) m).1 = true) :
    runLoop cfg c m (.resp r :: rest) =
      ⟨[.save c m, .send c m, .emit (respValue r)] ++ evs ++
          (runLoop cfg (extractCursor (respValue r) c)
            (extractMaxId (respValue r) m).1 rest).trace,
        (runLoop cfg (extractCursor (respValue r) c)
          (extractMaxId (respValue r) m).1 rest).outcome,
        (runLoop cfg (extractCursor (respValue r) c)
          (extractMaxId (respValue r) m).1 rest).finalCursor⟩ := by
  have hstall' : ¬(extractMaxId (respValue r) m).2 = true := by simp [hstall]
  simp only [runLoop, if_neg hnr, if_pos hok, if_neg hstall', if_pos hf, hpace]
  rw [if_pos ⟨hf, hcont⟩]

/-- C4: with continuation following enabled, whenever two consecutive
successful pages are non-empty arrays whose last elements carry the same
`id` (the first not already equal to the held max_id, so the run reaches
page two, and page-one pacing raising no exception), the loop stops right
after the second page — whatever responses would follow and although the
(non-null) cursor `c0` is still held: exactly two requests are sent, and
the run ends normally. -/
theorem c4_stall_stops (cfg : Config) (c0 m0 v1 v2 : Json) (xs1 xs2 : JList)
    (g1 g2 : JFields) (r1 r2 : Resp) (rest : List Attempt) (evs : List Event)
    (hf : cfg.followCursor = true)
    (h1nr : ¬(r1.status = 420 ∨ r1.status = 429)) (h1ok : r1.status < 400)
    (h1n204 : r1.status ≠ 204)
    (h2nr : ¬(r2.status = 420 ∨ r2.status = 429)) (h2ok : r2.status < 400)
    (h2n204 : r2.status ≠ 204)
    (hb1 : r1.body = .jsonB (.arr xs1)) (hl1 : jlast xs1 = some (.obj g1))
    (hid1 : jlookup g1 "id" = some v1)
    (hb2 : r2.body = .jsonB (.arr xs2)) (hl2 : jlast xs2 = some (.obj g2))
    (hid2 : jlookup g2 "id" = some v2)
    (hnostall1 : pyEq v1 m0 = false)
    (hconst : pyEq v2 v1 = true)
    (hcont : jtruthy c0 = true ∨ jtruthy v1 = true)
    (hpace : pacingResult cfg r1 = .ok evs) :
    runLoop cfg c0 m0 (.resp r1 :: .resp r2 :: rest) =
      ⟨[.save c0 m0, .send c0 m0, .emit (.arr xs1)] ++ evs ++
          [.save c0 v1, .send c0 v1, .emit (.arr xs2)],
        .finished, c0⟩ := by
  have hv1 : respValue r1 = .arr xs1 := by simp [respValue, h1n204, hb1]
  have hv2 : respValue r2 = .arr xs2 := by simp [respValue, h2n204, hb2]
  have hem1 : extractMaxId (.arr xs1) m0 = (v1, false) := by
    simp [extractMaxId, hl1, hid1, hnostall1]
  have hem2 : extractMaxId (.arr xs2) v1 = (v2, true) := by
    simp [extractMaxId, hl2, hid2, hconst]
  have hstall1 : (extractMaxId (respValue r1) m0).2 = false := by rw [hv1, hem1]
  have hcont' : jtruthy (extractCursor (respValue r1) c0) = true ∨
      jtruthy (extractMaxId (respValue r1) m0).1 = true := by
    rw [hv1, hem1]
    exact hcont
  rw [runLoop_advance cfg c0 m0 r1 (.resp r2 :: rest) evs h1nr h1ok hstall1 hf
    hpace hcont']
  have hstall2 :
      (extractMaxId (respValue r2) (extractMaxId (respValue r1) m0).1).2 = true := by
    rw [hv2, hv1, hem1]
    rw [hem2]
  rw [runLoop_stall cfg (extractCursor (respValue r1) c0)
    (extractMaxId (respValue r1) m0).1 r2 rest h2nr h2ok hstall2]
  rw [hv1, hv2, hem1]
  rfl

/-- C4 witness: two pages both ending in `{"id": 42}` while cursor "abc" is
held stop the run after the second page, with a transport failure queued
behind them that is never reached. -/
theorem c4_stall_stops_witness :
    runLoop ⟨true, true, 0, 900, 0⟩ (.str "abc") .null
        [.resp ⟨200, none, none,
          .jsonB (.arr (.cons (.obj (.cons "id" (.num 42) .nil)) .nil))⟩,
         .resp ⟨200, none, none,
          .jsonB (.arr (.cons (.obj (.cons "id" (.num 42) .nil)) .nil))⟩,
         .transportFail] =
      ⟨[.save (.str "abc") .null, .send (.str "abc") .null,
          .emit (.arr (.cons (.obj (.cons "id" (.num 42) .nil)) .nil))] ++ [] ++
          [.save (.str "abc") (.num 42), .send (.str "abc") (.num 42),
            .emit (.arr (.cons (.obj (.cons "id" (.num 42) .nil)) .nil))],
        .finished, .str "abc"⟩ :=
  c4_stall_stops ⟨true, true, 0, 900, 0⟩ (.str "abc") .null (.num 42) (.num 42)
    (.cons (.obj (.cons "id" (.num 42) .nil)) .nil)
    (.cons (.obj (.cons "id" (.num 42) .nil)) .nil)
    (.cons "id" (.num 42) .nil) (.cons "id" (.num 42) .nil)
    ⟨200, none, none, .jsonB (.arr (.cons (.obj (.cons "id" (.num 42) .nil)) .nil))⟩
    ⟨200, none, none, .jsonB (.arr (.cons (.obj (.cons "id" (.num 42) .nil)) .nil))⟩
    [.transportFail] [] rfl (by decide) (by decide) (by decide) (by decide)
    (by decide) (by decide) rfl rfl rfl rfl rfl rfl (by decide) (by decide)
    (Or.inl (by decide)) rfl

/-- C1 (counterexample): the claim says requests differing only in
caller-supplied (or absent) `cursor`/`max_id` values get identical
fingerprints; but lines 151-159 only read those values out of
`req_args['params']` without removing them, so the hash at line 163 covers
them.  Concretely, `-d cursor=1` vs `-d cursor=2` (and vs no cursor at
all), and `-d max_id=5` vs `-d max_id=6`, produce different digests. -/
theorem c1_fingerprint_counterexample :
    reqHash .get "u" [("cursor", "1")] ≠ reqHash .get "u" [("cursor", "2")] ∧
    reqHash .get "u" [] ≠ reqHash .get "u" [("cursor", "1")] ∧
    reqHash .get "u" [("max_id", "5")] ≠ reqHash .get "u" [("max_id", "6")] := by
  exact ⟨by decide, by decide, by decide⟩

/-- C1 (amended): the fingerprint is the SHA-256 of the key-sorted JSON
serialization of method, URL, and the full caller-supplied parameter
mapping — including any caller-supplied `cursor`/`max_id` (see the
counterexample); only the continuation values layered on during the loop
(after the hash is computed once, before the first request) never affect
it.  It depends only on the mapping the `-d` options denote — supplying
the same keys in any order, with later duplicates winning, gives the
identical fingerprint — while requests differing in method, URL, body
mode, or any parameter give different serializations and, on the corpus
checked, different digests. -/
theorem c1_fingerprint (mode : BodyMode) (url : String)
    (d1 d2 : List (String × String))
    (h : ∀ k ∈ d1.map Prod.fst ++ d2.map Prod.fst,
      pyLookup d1 k = pyLookup d2 k) :
    reqHash mode url d1 = reqHash mode url d2 ∧
    reqHash .get "u" [] ≠ reqHash .get "u2" [] ∧
    reqHash .get "u" [] ≠ reqHash .postForm "u" [] ∧
    reqHash .postForm "u" [] ≠ reqHash .postJson "u" [] ∧
    reqHash .get "u" [] ≠ reqHash .get "u" [("a", "1")] ∧
    reqHash .get "u" [("a", "1")] ≠ reqHash .get "u" [("a", "2")] := by
  refine ⟨?_, by decide, by decide, by decide, by decide, by decide⟩
  have hd : mkDict d1 = mkDict d2 := mkDict_ext h
  cases mode <;> simp [reqHash, reqData, reqDataJson, dictJson, hd]

/-- C1 witness: the same two parameters supplied in opposite order (a=1,
b=2 vs b=2, a=1) fingerprint identically, and the corpus digests are
pairwise distinct. -/
theorem c1_fingerprint_witness :
    reqHash .get "u" [("a", "1"), ("b", "2")] =
      reqHash .get "u" [("b", "2"), ("a", "1")] ∧
    reqHash .get "u" [] ≠ reqHash .get "u2" [] ∧
    reqHash .get "u" [] ≠ reqHash .postForm "u" [] ∧
    reqHash .postForm "u" [] ≠ reqHash .postJson "u" [] ∧
    reqHash .get "u" [] ≠ reqHash .get "u" [("a", "1")] ∧
    reqHash .get "u" [("a", "1")] ≠ reqHash .get "u" [("a", "2")] :=
  c1_fingerprint .get "u" [("a", "1"), ("b", "2")] [("b", "2"), ("a", "1")]
    (by decide)
